import Mathlib

/-!
Verification of the OSC request/response and dispatch core of
`mcp-server.mjs` (ableton-live-assistant-mcp), as a shallow embedding.

JavaScript values that flow through the dispatcher are modelled by `JSVal`
(numbers as rationals, strings, booleans, and the distinguished `undefined`).
Argument records (plain JS objects) are association lists; later spreads
win, and a key present with value `undefined` is distinct from an absent
key, exactly as for JS own-property spread semantics.
-/

/-- A JavaScript scalar value as it flows through the dispatcher:
number, string, boolean, or `undefined`. -/
inductive JSVal : Type
  | vNum (q : ℚ)
  | vStr (s : String)
  | vBool (b : Bool)
  | vUndef
  deriving DecidableEq, Repr

/-- A JS object of scalar own-properties, as an association list.
A key occurring earlier shadows later occurrences (so `{...a, ...b}` is
modelled by `b ++ a`). A key bound to `vUndef` is present-with-undefined,
which differs from the key being absent. -/
abbrev Args : Type := List (String × JSVal)

/-- First-match association lookup (JS own-property lookup). -/
def getEntry : List (String × JSVal) → String → Option JSVal
  | [], _ => none
  | (k, v) :: rest, key => if k = key then some v else getEntry rest key

/-- JS property read `obj[key]`: an absent key reads as `undefined`. -/
def getProp (o : Args) (key : String) : JSVal :=
  (getEntry o key).getD JSVal.vUndef

/-- JS truthiness of a scalar, as used by `!mapping.defaults?.[paramName]`. -/
def truthy : JSVal → Bool
  | JSVal.vNum q => q ≠ 0
  | JSVal.vStr s => s ≠ ""
  | JSVal.vBool b => b
  | JSVal.vUndef => false

/-- JS template-literal coercion of a scalar to a string, modelled
abstractly: numbers render via `ℚ`'s `toString`. Only used to build
human-readable result strings; no claim depends on numeric rendering. -/
def jsDisplay : JSVal → String
  | JSVal.vNum q => toString q
  | JSVal.vStr s => s
  | JSVal.vBool b => cond b "true" "false"
  | JSVal.vUndef => "undefined"

/-- Transport configuration, from the environment-derived constants
`OSC_HOST`, `OSC_SEND_PORT`, `OSC_RECV_PORT`, `TIMEOUT_MS`
(mcp-server.mjs lines 12-15). -/
structure OscConfig : Type where
  host : String
  sendPort : ℕ
  recvPort : ℕ
  timeoutMs : ℕ
  deriving DecidableEq, Repr

/-- The default configuration: host 127.0.0.1, send port 11000,
receive port 11001, timeout 5000 ms. -/
def defaultConfig : OscConfig :=
  { host := "127.0.0.1", sendPort := 11000, recvPort := 11001, timeoutMs := 5000 }

/-- The timeout rejection message built in `sendAndWait`'s `onTimeout`
(mcp-server.mjs lines 458-464). It interpolates the address, the host and
the two ports; it does not interpolate `TIMEOUT_MS`. -/
def timeoutMessage (address : String) (cfg : OscConfig) : String :=
  "Timeout waiting for Ableton response on " ++ address ++ ". " ++
  "Check that Ableton Live is running with AbletonOSC enabled and ports are correct. " ++
  "(host=" ++ cfg.host ++ ", send→" ++ toString cfg.sendPort ++
  ", recv←" ++ toString cfg.recvPort ++ ")"

/-- Outcome of one `sendAndWait` promise. -/
inductive SWResult : Type
  | resolvedArgs (args : List JSVal)
  | rejectedTimeout (msg : String)
  deriving DecidableEq, Repr

/-- State of one pending `sendAndWait` call after its executor has run
synchronously: the OSC listener is registered, the timer is armed, the
promise is unsettled. -/
structure SWState : Type where
  listenerActive : Bool
  timerActive : Bool
  outcome : Option SWResult
  deriving DecidableEq, Repr

/-- State right after `sendAndWait(address, ...)` registers its timer and
listener and sends the outbound message (mcp-server.mjs lines 450-479). -/
def initSW : SWState :=
  { listenerActive := true, timerActive := true, outcome := none }

/-- Promise settlement: the first settlement wins, later ones are no-ops. -/
def settle (o : Option SWResult) (r : SWResult) : Option SWResult :=
  match o with
  | none => some r
  | some x => some x

/-- Events the event loop can deliver to one pending `sendAndWait`:
an inbound OSC message on the awaited address, or the armed timer firing.
Each carries the event-loop time (ms since the call registered). -/
inductive SWEvent : Type
  | deliver (t : ℕ) (args : List JSVal)
  | timerFire (t : ℕ)
  deriving DecidableEq, Repr

/-- One event-loop step of a pending `sendAndWait` call.

`deliver` runs the registered `handler` (mcp-server.mjs lines 469-475):
clear the timer, deregister the listener, resolve with the message args —
but only if the listener is still registered. `timerFire` runs `onTimeout`
(lines 454-465): deregister the listener, reject with the timeout
message — but only if the timer is still armed. -/
def stepSW (cfg : OscConfig) (address : String) (st : SWState) : SWEvent → SWState
  | SWEvent.deliver _ args =>
      if st.listenerActive then
        { listenerActive := false, timerActive := false,
          outcome := settle st.outcome (SWResult.resolvedArgs args) }
      else st
  | SWEvent.timerFire _ =>
      if st.timerActive then
        { listenerActive := false, timerActive := false,
          outcome := settle st.outcome (SWResult.rejectedTimeout (timeoutMessage address cfg)) }
      else st

/-- Run a pending `sendAndWait` through a sequence of event-loop events. -/
def runSW (cfg : OscConfig) (address : String) (st : SWState) (es : List SWEvent) : SWState :=
  es.foldl (stepSW cfg address) st

/-- `setTimeout(onTimeout, TIMEOUT_MS)` semantics: the timer callback can
only run at event-loop time no earlier than the configured delay. -/
def validTrace (cfg : OscConfig) (es : List SWEvent) : Prop :=
  ∀ t, SWEvent.timerFire t ∈ es → cfg.timeoutMs ≤ t

/-- Substring search on character lists (used to state what a diagnostic
message does and does not carry). -/
def leadingMatch : List Char → List Char → Bool
  | [], _ => true
  | _ :: _, [] => false
  | a :: as, b :: bs => a = b && leadingMatch as bs

/-- `hasRun pat l` is true iff `pat` occurs contiguously inside `l`. -/
def hasRun (pat : List Char) : List Char → Bool
  | [] => leadingMatch pat []
  | c :: rest => leadingMatch pat (c :: rest) || hasRun pat rest

/-- String containment: `strHas s pat` iff `pat` occurs inside `s`. -/
def strHas (s pat : String) : Bool :=
  hasRun pat.toList s.toList

-- Basic lemmas about the sendAndWait state machine.

/-- A settled, fully-deregistered wait is inert: no further event changes it. -/
theorem stepSW_inert (cfg : OscConfig) (address : String) (o : Option SWResult)
    (e : SWEvent) :
    stepSW cfg address { listenerActive := false, timerActive := false, outcome := o } e =
      { listenerActive := false, timerActive := false, outcome := o } := by
  cases e <;> simp [stepSW]

/-- Running any events from an inert state leaves it unchanged. -/
theorem runSW_inert (cfg : OscConfig) (address : String) (o : Option SWResult)
    (es : List SWEvent) :
    runSW cfg address { listenerActive := false, timerActive := false, outcome := o } es =
      { listenerActive := false, timerActive := false, outcome := o } := by
  induction es with
  | nil => rfl
  | cons e es ih =>
      simp only [runSW, List.foldl_cons] at *
      rw [stepSW_inert]
      exact ih

/-- C1: if the matching inbound message arrives while the wait is pending
(before the timer has fired), the call resolves with exactly that message's
argument list, the timer is cancelled and the listener is deregistered; no
later event (further messages, the stale timer firing) changes the outcome,
so the pending wait is settled exactly once and not leaked. -/
theorem sendAndWait_resolves_on_reply (cfg : OscConfig) (address : String)
    (t : ℕ) (args : List JSVal) (rest : List SWEvent) :
    runSW cfg address initSW (SWEvent.deliver t args :: rest) =
      { listenerActive := false, timerActive := false,
        outcome := some (SWResult.resolvedArgs args) } := by
  simp only [runSW, List.foldl_cons]
  rw [show stepSW cfg address initSW (SWEvent.deliver t args) =
      { listenerActive := false, timerActive := false,
        outcome := some (SWResult.resolvedArgs args) } from rfl]
  exact runSW_inert cfg address _ rest

-- Containment lemmas for strHas.

theorem leadingMatch_self_append (pat r : List Char) :
    leadingMatch pat (pat ++ r) = true := by
  induction pat with
  | nil => rfl
  | cons a as ih => simp [leadingMatch, ih]

theorem hasRun_of_leadingMatch (pat l : List Char) (h : leadingMatch pat l = true) :
    hasRun pat l = true := by
  cases l with
  | nil => exact h
  | cons c rest => simp [hasRun, h]

theorem hasRun_append_left (pat l r : List Char) (h : hasRun pat r = true) :
    hasRun pat (l ++ r) = true := by
  induction l with
  | nil => exact h
  | cons c l ih => simp [hasRun, ih]

/-- If `s` decomposes as `a ++ (x ++ b)`, then `s` contains `x`. -/
theorem strHas_of_decomp (a x b s : String) (h : s = a ++ (x ++ b)) :
    strHas s x = true := by
  subst h
  simp only [strHas, String.toList, String.data_append]
  exact hasRun_append_left _ _ _
    (hasRun_of_leadingMatch _ _ (leadingMatch_self_append _ _))

/-- The fixed part of the timeout message before the address. -/
theorem timeoutMessage_decomp (address : String) (cfg : OscConfig) :
    timeoutMessage address cfg =
      "Timeout waiting for Ableton response on " ++ (address ++
        (". " ++
         "Check that Ableton Live is running with AbletonOSC enabled and ports are correct. " ++
         "(host=" ++ (cfg.host ++ (", send→" ++ (toString cfg.sendPort ++
         (", recv←" ++ (toString cfg.recvPort ++ ")"))))))) := by
  apply String.ext
  simp [timeoutMessage, String.data_append, List.append_assoc]

/-- C2 (amended): when the timer fires — which `setTimeout` permits only at
or after the configured timeout — and no reply was delivered first, the
pending wait rejects with the timeout message, which carries the timed-out
address and the transport configuration (host, send port, receive port),
and the listener is deregistered; later events change nothing. The message
does not carry the configured timeout value (see the counterexample). -/
theorem sendAndWait_timeout_rejects (cfg : OscConfig) (address : String)
    (t : ℕ) (rest : List SWEvent)
    (hwf : validTrace cfg (SWEvent.timerFire t :: rest)) :
    cfg.timeoutMs ≤ t ∧
    runSW cfg address initSW (SWEvent.timerFire t :: rest) =
      { listenerActive := false, timerActive := false,
        outcome := some (SWResult.rejectedTimeout (timeoutMessage address cfg)) } ∧
    strHas (timeoutMessage address cfg) address = true ∧
    strHas (timeoutMessage address cfg) cfg.host = true ∧
    strHas (timeoutMessage address cfg) (toString cfg.sendPort) = true ∧
    strHas (timeoutMessage address cfg) (toString cfg.recvPort) = true := by
  refine ⟨hwf t (List.mem_cons_self _ _), ?_, ?_, ?_, ?_, ?_⟩
  · simp only [runSW, List.foldl_cons]
    rw [show stepSW cfg address initSW (SWEvent.timerFire t) =
        { listenerActive := false, timerActive := false,
          outcome := some (SWResult.rejectedTimeout (timeoutMessage address cfg)) } from rfl]
    exact runSW_inert cfg address _ rest
  · exact strHas_of_decomp _ _ _ _ (timeoutMessage_decomp address cfg)
  · apply strHas_of_decomp
      ("Timeout waiting for Ableton response on " ++ address ++ ". " ++
       "Check that Ableton Live is running with AbletonOSC enabled and ports are correct. " ++
       "(host=") cfg.host
      (", send→" ++ (toString cfg.sendPort ++ (", recv←" ++ (toString cfg.recvPort ++ ")"))))
    apply String.ext
    simp [timeoutMessage, String.data_append, List.append_assoc]
  · apply strHas_of_decomp
      ("Timeout waiting for Ableton response on " ++ address ++ ". " ++
       "Check that Ableton Live is running with AbletonOSC enabled and ports are correct. " ++
       "(host=" ++ cfg.host ++ ", send→") (toString cfg.sendPort)
      (", recv←" ++ (toString cfg.recvPort ++ ")"))
    apply String.ext
    simp [timeoutMessage, String.data_append, List.append_assoc]
  · apply strHas_of_decomp
      ("Timeout waiting for Ableton response on " ++ address ++ ". " ++
       "Check that Ableton Live is running with AbletonOSC enabled and ports are correct. " ++
       "(host=" ++ cfg.host ++ ", send→" ++ toString cfg.sendPort ++ ", recv←")
      (toString cfg.recvPort) ")"
    apply String.ext
    simp [timeoutMessage, String.data_append, List.append_assoc]

/-- C2 witness: at the default configuration and address
`/live/song/get/tempo`, a timer firing at 5000 ms is a valid trace and the
amended timeout behaviour holds there. -/
theorem sendAndWait_timeout_rejects_witness :
    validTrace defaultConfig [SWEvent.timerFire 5000] ∧
    (defaultConfig.timeoutMs ≤ 5000 ∧
     runSW defaultConfig "/live/song/get/tempo" initSW [SWEvent.timerFire 5000] =
       { listenerActive := false, timerActive := false,
         outcome := some (SWResult.rejectedTimeout
           (timeoutMessage "/live/song/get/tempo" defaultConfig)) } ∧
     strHas (timeoutMessage "/live/song/get/tempo" defaultConfig) "/live/song/get/tempo" = true ∧
     strHas (timeoutMessage "/live/song/get/tempo" defaultConfig) defaultConfig.host = true ∧
     strHas (timeoutMessage "/live/song/get/tempo" defaultConfig)
       (toString defaultConfig.sendPort) = true ∧
     strHas (timeoutMessage "/live/song/get/tempo" defaultConfig)
       (toString defaultConfig.recvPort) = true) := by
  have hwf : validTrace defaultConfig [SWEvent.timerFire 5000] := by
    intro t ht
    simp only [List.mem_singleton] at ht
    cases ht
    decide
  exact ⟨hwf, sendAndWait_timeout_rejects defaultConfig "/live/song/get/tempo" 5000 [] hwf⟩

/-- C2 counterexample: the claim says the timeout error carries the
configured timeout value. At the default configuration (timeout 5000 ms)
the rejection message produced on timer expiry does not contain the string
"5000" anywhere, so the timeout value is not carried. -/
theorem sendAndWait_timeout_message_lacks_timeout_value :
    (runSW defaultConfig "/live/song/get/tempo" initSW [SWEvent.timerFire 5000]).outcome =
      some (SWResult.rejectedTimeout
        (timeoutMessage "/live/song/get/tempo" defaultConfig)) ∧
    strHas (timeoutMessage "/live/song/get/tempo" defaultConfig)
      (toString defaultConfig.timeoutMs) = false := by
  constructor
  · rfl
  · decide

-- The command dispatcher (handleTool and the CallTool request handler).

/-- An observable transport action performed by one invocation:
an outbound OSC message, or the registration of a pending reply wait. -/
inductive Effect : Type
  | send (address : String) (args : List JSVal)
  | registerWait (address : String)
  deriving DecidableEq, Repr

/-- The value a tool invocation produces on success: a human-readable
string, or the raw argument list of an awaited OSC reply. -/
inductive RetVal : Type
  | str (s : String)
  | vals (xs : List JSVal)
  deriving DecidableEq, Repr

/-- Result of `handleTool`: a success value or a thrown error message,
together with the transport effects performed before returning/throwing. -/
abbrev ToolOutcome : Type := Except String RetVal × List Effect

/-- One entry of the `OSC_MAPPINGS` table: either a custom handler entry
(`hasHandler`), or a declarative mapping with an OSC address, ordered
parameter names, per-parameter defaults, and a send mode. -/
structure ToolMapping : Type where
  hasHandler : Bool
  address : Option String
  params : List String
  defaults : Args
  fireAndForget : Bool
  deriving DecidableEq, Repr

/-- A declarative fire-and-forget entry of `OSC_MAPPINGS`. -/
def declTool (address : String) (params : List String) (defaults : Args) : ToolMapping :=
  { hasHandler := false, address := some address, params := params,
    defaults := defaults, fireAndForget := true }

/-- A custom-handler entry of `OSC_MAPPINGS` (the handler body is supplied
separately to `handleTool`). -/
def handlerTool : ToolMapping :=
  { hasHandler := true, address := none, params := [], defaults := [],
    fireAndForget := false }

/-- First-match association lookup for the mappings table
(`OSC_MAPPINGS[toolName]`; keys are unique in the source object). -/
def lookupName {α : Type} : List (String × α) → String → Option α
  | [], _ => none
  | (k, v) :: rest, key => if k = key then some v else lookupName rest key

/-- The `OSC_MAPPINGS` table of mcp-server.mjs lines 57-442, with each
custom-handler entry recorded as such and each declarative entry carrying
its address, ordered params, and defaults. -/
def OSC_MAPPINGS : List (String × ToolMapping) := [
  ("get_song_info", handlerTool),
  ("set_tempo", declTool "/live/song/set/tempo" ["tempo"] []),
  ("transport_control", handlerTool),
  ("list_tracks", handlerTool),
  ("get_track_clips", handlerTool),
  ("fire_clip", declTool "/live/clip_slot/fire" ["track_index", "clip_index"] []),
  ("stop_track_clips", declTool "/live/track/stop_all_clips" ["track_index"] []),
  ("create_clip", declTool "/live/clip_slot/create_clip"
    ["track_index", "clip_index", "length"] [("length", JSVal.vNum 4)]),
  ("delete_clip", declTool "/live/clip_slot/delete_clip" ["track_index", "clip_index"] []),
  ("set_clip_name", declTool "/live/clip/set/name"
    ["track_index", "clip_index", "name"] []),
  ("set_clip_color", declTool "/live/clip/set/color"
    ["track_index", "clip_index", "color_index"] []),
  ("duplicate_clip", declTool "/live/clip/duplicate_clip_to"
    ["source_track_index", "source_clip_index", "dest_track_index", "dest_clip_index"] []),
  ("list_scenes", handlerTool),
  ("fire_scene", declTool "/live/scene/fire" ["scene_index"] []),
  ("create_scene", declTool "/live/song/create_scene" ["index"] [("index", JSVal.vNum (-1))]),
  ("delete_scene", declTool "/live/song/delete_scene" ["scene_index"] []),
  ("duplicate_scene", declTool "/live/scene/duplicate" ["scene_index"] []),
  ("set_track_property", handlerTool),
  ("set_clip_loop", handlerTool),
  ("create_midi_note", declTool "/live/clip/add/notes"
    ["track_index", "clip_index", "pitch", "start_time", "duration", "velocity"]
    [("velocity", JSVal.vNum 100)]),
  ("set_global_quantization", handlerTool),
  ("create_audio_track", declTool "/live/song/create_audio_track" ["index"]
    [("index", JSVal.vNum (-1))]),
  ("create_midi_track", declTool "/live/song/create_midi_track" ["index"]
    [("index", JSVal.vNum (-1))]),
  ("delete_track", declTool "/live/song/delete_track" ["track_index"] []),
  ("get_arrangement_view", handlerTool),
  ("set_arrangement_loop", handlerTool),
  ("get_clip_length", handlerTool),
  ("move_clip", handlerTool),
  ("get_all_clips_in_scene", handlerTool)]

/-- The parameter-extraction loop of the declarative path (mcp-server.mjs
lines 520-526): for each declared parameter in order, read its value from
the merged record; if it is `undefined` and `mapping.defaults?.[param]` is
not truthy, throw "Missing required parameter" naming it. The first failure
aborts the whole extraction (the `.map` throw). -/
def extractParams (defaults finalArgs : Args) : List String → Except String (List JSVal)
  | [] => Except.ok []
  | p :: ps =>
      let value := getProp finalArgs p
      if value = JSVal.vUndef ∧ truthy (getProp defaults p) = false then
        Except.error ("Missing required parameter: " ++ p)
      else
        match extractParams defaults finalArgs ps with
        | Except.error e => Except.error e
        | Except.ok rest => Except.ok (value :: rest)

/-- `handleTool` (mcp-server.mjs lines 494-538). `H` gives the semantics of
the custom handlers (entries with `hasHandler`); `replyOf` is the reply
oracle for the declarative request-response branch; `testMode` is the
`TEST_MODE` flag consulted by `fireAndForget` (line 446) — note that
`sendAndWait`'s own send (line 478) is not gated on it. -/
def handleTool (H : String → Args → ToolOutcome) (testMode : Bool)
    (mappings : List (String × ToolMapping)) (replyOf : String → List JSVal)
    (toolName : String) (args : Args) : ToolOutcome :=
  if toolName = "health_check" then (Except.ok (RetVal.str "ok"), [])
  else
    match lookupName mappings toolName with
    | none =>
        (Except.error ("Tool '" ++ toolName ++
          "' is defined in ableton_mcp_tools.json but not yet implemented in the server. " ++
          "This tool requires custom OSC mapping logic to be added to the server."), [])
    | some m =>
        if m.hasHandler then H toolName args
        else
          match m.address with
          | some addr =>
              let finalArgs := args ++ m.defaults
              match extractParams m.defaults finalArgs m.params with
              | Except.error e => (Except.error e, [])
              | Except.ok oscParams =>
                  if m.fireAndForget then
                    (Except.ok (RetVal.str ("Command sent: " ++ addr)),
                     if testMode then [] else [Effect.send addr oscParams])
                  else
                    (Except.ok (RetVal.vals (replyOf addr)),
                     [Effect.registerWait addr, Effect.send addr oscParams])
          | none =>
              (Except.error ("Invalid mapping configuration for tool: " ++ toolName), [])

/-- A structured tool response at the inbound call surface: the text
content and the `isError` flag (`toolText` / `toolError`,
mcp-server.mjs lines 482-491). -/
structure ToolResponse : Type where
  text : String
  isError : Bool
  deriving DecidableEq, Repr

/-- `JSON.stringify` of a reply argument list, modelled abstractly
(numbers render via `ℚ`'s `toString`; `undefined` serialises as `null`).
No claim depends on this rendering. -/
def jsonOfVal : JSVal → String
  | JSVal.vNum q => toString q
  | JSVal.vStr s => "\"" ++ s ++ "\""
  | JSVal.vBool b => cond b "true" "false"
  | JSVal.vUndef => "null"

/-- Render a success value to response text as `toolText` does: strings
pass through, anything else is JSON-stringified. -/
def renderRet : RetVal → String
  | RetVal.str s => s
  | RetVal.vals xs => "[" ++ String.intercalate "," (xs.map jsonOfVal) ++ "]"

/-- The `CallToolRequestSchema` handler (mcp-server.mjs lines 573-594):
in test mode, short-circuit to deterministic canned responses before any
dispatch; otherwise dispatch through `handleTool`, wrapping a successful
value with `toolText` and a thrown error with `toolError`. -/
def callToolHandler (H : String → Args → ToolOutcome) (testMode : Bool)
    (mappings : List (String × ToolMapping)) (replyOf : String → List JSVal)
    (name : String) (args : Args) : ToolResponse × List Effect :=
  if testMode then
    if name = "health_check" then ({ text := "ok", isError := false }, [])
    else if name = "get_tempo" then
      ({ text := "Current tempo: 120 BPM", isError := false }, [])
    else
      ({ text := "Test mode: " ++ name ++ " executed successfully", isError := false }, [])
  else
    match handleTool H testMode mappings replyOf name args with
    | (Except.ok r, effs) => ({ text := renderRet r, isError := false }, effs)
    | (Except.error e, effs) => ({ text := "Error: " ++ e, isError := true }, effs)

/-- The `set_track_property` custom handler (mcp-server.mjs lines 257-285):
map the property name to an OSC address, coerce a boolean `value` to 1/0,
fire-and-forget the message (suppressed in test mode), return a summary
string. Any other value — including a numeric one outside [0,1] — is sent
unchanged. -/
def set_track_property_handler (testMode : Bool) (args : Args) : ToolOutcome :=
  let track_index := getProp args "track_index"
  let property := getProp args "property"
  let value := getProp args "value"
  let propertyMap : List (String × String) := [
    ("volume", "/live/track/set/volume"),
    ("pan", "/live/track/set/pan"),
    ("mute", "/live/track/set/mute"),
    ("solo", "/live/track/set/solo"),
    ("arm", "/live/track/set/arm"),
    ("name", "/live/track/set/name"),
    ("color", "/live/track/set/color")]
  let addrOpt : Option String :=
    match property with
    | JSVal.vStr p => lookupName propertyMap p
    | _ => none
  match addrOpt with
  | none => (Except.error ("Unknown property: " ++ jsDisplay property), [])
  | some address =>
      let oscValue : JSVal :=
        match value with
        | JSVal.vBool b => JSVal.vNum (cond b 1 0)
        | v => v
      (Except.ok (RetVal.str ("Track " ++ jsDisplay track_index ++ " " ++
          jsDisplay property ++ " set to " ++ jsDisplay value)),
       if testMode then [] else [Effect.send address [track_index, oscValue]])

-- Lemmas about parameter extraction and record merging.

/-- If some declared parameter reads `undefined` from the merged record and
its declared default is not truthy, extraction throws "Missing required
parameter" naming such a parameter (the first one, per the `.map` throw). -/
theorem extractParams_error_of_missing (defaults finalArgs : Args) (ps : List String)
    (h : ∃ p ∈ ps, getProp finalArgs p = JSVal.vUndef ∧ truthy (getProp defaults p) = false) :
    ∃ p ∈ ps, getProp finalArgs p = JSVal.vUndef ∧ truthy (getProp defaults p) = false ∧
      extractParams defaults finalArgs ps =
        Except.error ("Missing required parameter: " ++ p) := by
  induction ps with
  | nil => simp at h
  | cons q qs ih =>
      by_cases hq : getProp finalArgs q = JSVal.vUndef ∧ truthy (getProp defaults q) = false
      · exact ⟨q, List.mem_cons_self _ _, hq.1, hq.2, by simp [extractParams, hq]⟩
      · obtain ⟨p, hp, h1, h2⟩ := h
        rcases List.mem_cons.mp hp with rfl | hmem
        · exact absurd ⟨h1, h2⟩ hq
        · obtain ⟨p', hp', h1', h2', herr⟩ := ih ⟨p, hmem, h1, h2⟩
          exact ⟨p', List.mem_cons_of_mem _ hp', h1', h2',
            by simp [extractParams, hq, herr]⟩

/-- If every declared parameter either reads a defined value from the
merged record or has a truthy declared default, extraction succeeds and
returns the merged values in declared order. -/
theorem extractParams_ok (defaults finalArgs : Args) (ps : List String)
    (h : ∀ p ∈ ps, getProp finalArgs p ≠ JSVal.vUndef ∨ truthy (getProp defaults p) = true) :
    extractParams defaults finalArgs ps = Except.ok (ps.map (getProp finalArgs)) := by
  induction ps with
  | nil => rfl
  | cons q qs ih =>
      have hq : ¬(getProp finalArgs q = JSVal.vUndef ∧ truthy (getProp defaults q) = false) := by
        rcases h q (List.mem_cons_self _ _) with hv | ht
        · exact fun hc => hv hc.1
        · exact fun hc => by rw [ht] at hc; exact absurd hc.2 (by simp)
      simp [extractParams, hq, ih (fun p hp => h p (List.mem_cons_of_mem _ hp))]

/-- A key absent from the first record reads from the second in the merge. -/
theorem getEntry_append_of_none (a d : Args) (p : String) (h : getEntry a p = none) :
    getEntry (a ++ d) p = getEntry d p := by
  induction a with
  | nil => rfl
  | cons kv rest ih =>
      obtain ⟨k, v⟩ := kv
      by_cases hk : k = p
      · simp [getEntry, hk] at h
      · simp [getEntry, hk] at h ⊢
        exact ih h

/-- A key present in the first record wins in the merge. -/
theorem getEntry_append_of_some (a d : Args) (p : String) (v : JSVal)
    (h : getEntry a p = some v) : getEntry (a ++ d) p = some v := by
  induction a with
  | nil => simp [getEntry] at h
  | cons kv rest ih =>
      obtain ⟨k, w⟩ := kv
      by_cases hk : k = p
      · simp [getEntry, hk] at h ⊢
        exact h
      · simp [getEntry, hk] at h ⊢
        exact ih h

/-- C3: on the declarative path, if some declared parameter has neither a
caller-supplied value nor a (truthy) declared default, the invocation
throws "Missing required parameter" naming such a parameter and performs
zero transport effects — validation precedes any send. -/
theorem handleTool_missing_param (H : String → Args → ToolOutcome) (testMode : Bool)
    (mappings : List (String × ToolMapping)) (replyOf : String → List JSVal)
    (toolName : String) (args : Args) (m : ToolMapping) (addr : String)
    (hname : toolName ≠ "health_check")
    (hlook : lookupName mappings toolName = some m)
    (hh : m.hasHandler = false)
    (haddr : m.address = some addr)
    (hmiss : ∃ p ∈ m.params, getProp (args ++ m.defaults) p = JSVal.vUndef ∧
      truthy (getProp m.defaults p) = false) :
    ∃ p ∈ m.params, getProp (args ++ m.defaults) p = JSVal.vUndef ∧
      truthy (getProp m.defaults p) = false ∧
      handleTool H testMode mappings replyOf toolName args =
        (Except.error ("Missing required parameter: " ++ p), []) := by
  obtain ⟨p, hp, h1, h2, herr⟩ :=
    extractParams_error_of_missing m.defaults (args ++ m.defaults) m.params hmiss
  exact ⟨p, hp, h1, h2, by simp [handleTool, hname, hlook, hh, haddr, herr]⟩

/-- C3 witness: `create_clip` (params `track_index`, `clip_index`,
`length`; default only for `length`) called with only `clip_index` fails
with "Missing required parameter: track_index" and performs no effects. -/
theorem handleTool_missing_param_witness :
    ∃ p ∈ (["track_index", "clip_index", "length"] : List String),
      getProp ([("clip_index", JSVal.vNum 1)] ++ [("length", JSVal.vNum 4)]) p = JSVal.vUndef ∧
      truthy (getProp [("length", JSVal.vNum 4)] p) = false ∧
      handleTool (fun _ _ => (Except.error "", [])) false OSC_MAPPINGS (fun _ => [])
        "create_clip" [("clip_index", JSVal.vNum 1)] =
        (Except.error ("Missing required parameter: " ++ p), []) :=
  handleTool_missing_param _ false OSC_MAPPINGS _ "create_clip"
    [("clip_index", JSVal.vNum 1)] _ "/live/clip_slot/create_clip"
    (by decide) rfl rfl rfl
    ⟨"track_index", by decide, by decide, by decide⟩

/-- C9: a declarative fire-and-forget operation invoked with a record that
leaves no declared parameter `undefined` in the merge performs exactly one
send — on the mapping's address, with the declared parameters in order,
caller values winning over declared defaults — registers no pending wait,
and returns the acknowledgement string immediately. -/
theorem handleTool_declarative_fnf (H : String → Args → ToolOutcome)
    (mappings : List (String × ToolMapping)) (replyOf : String → List JSVal)
    (toolName : String) (args : Args) (m : ToolMapping) (addr : String)
    (hname : toolName ≠ "health_check")
    (hlook : lookupName mappings toolName = some m)
    (hh : m.hasHandler = false)
    (haddr : m.address = some addr)
    (hfnf : m.fireAndForget = true)
    (hdef : ∀ p ∈ m.params, getProp (args ++ m.defaults) p ≠ JSVal.vUndef) :
    handleTool H false mappings replyOf toolName args =
      (Except.ok (RetVal.str ("Command sent: " ++ addr)),
       [Effect.send addr (m.params.map (getProp (args ++ m.defaults)))]) := by
  have hok := extractParams_ok m.defaults (args ++ m.defaults) m.params
    (fun p hp => Or.inl (hdef p hp))
  simp [handleTool, hname, hlook, hh, haddr, hfnf, hok]

/-- C9 witness: the spec's catalog scenario — entry `set_level` at
`/set/level` with params `channel`, `value` and default `value := 0.8` —
called with `{channel: 2}` sends `/set/level` with `(2, 0.8)`, registers no
wait, and acknowledges immediately. -/
theorem handleTool_declarative_fnf_witness :
    handleTool (fun _ _ => (Except.error "", [])) false
      [("set_level", declTool "/set/level" ["channel", "value"] [("value", JSVal.vNum (4/5))])]
      (fun _ => []) "set_level" [("channel", JSVal.vNum 2)] =
      (Except.ok (RetVal.str "Command sent: /set/level"),
       [Effect.send "/set/level" [JSVal.vNum 2, JSVal.vNum (4/5)]]) := by
  have h := handleTool_declarative_fnf (fun _ _ => (Except.error "", []))
    [("set_level", declTool "/set/level" ["channel", "value"] [("value", JSVal.vNum (4/5))])]
    (fun _ => []) "set_level" [("channel", JSVal.vNum 2)]
    (declTool "/set/level" ["channel", "value"] [("value", JSVal.vNum (4/5))]) "/set/level"
    (by decide) rfl rfl rfl rfl (by decide)
  simpa using h

-- C4: the set_track_property handler and out-of-range normalized values.

/-- C4 counterexample: `set_track_property` with property `volume` does not
clamp: input `1.5` is sent as `1.5` (not `1.0`) and input `-0.2` is sent
as `-0.2` (not `0.0`). -/
theorem set_track_property_no_clamp :
    (set_track_property_handler false
      [("track_index", JSVal.vNum 0), ("property", JSVal.vStr "volume"),
       ("value", JSVal.vNum (3/2))]).2 =
      [Effect.send "/live/track/set/volume" [JSVal.vNum 0, JSVal.vNum (3/2)]] ∧
    (3/2 : ℚ) ≠ 1 ∧
    (set_track_property_handler false
      [("track_index", JSVal.vNum 0), ("property", JSVal.vStr "volume"),
       ("value", JSVal.vNum (-1/5))]).2 =
      [Effect.send "/live/track/set/volume" [JSVal.vNum 0, JSVal.vNum (-1/5)]] ∧
    (-1/5 : ℚ) ≠ 0 := by
  refine ⟨rfl, by norm_num, rfl, by norm_num⟩

/-- C4 (amended): a numeric `value` outside [0,1] for the normalized
`volume` property is neither clamped nor rejected — it is passed through
unchanged in the sent message. -/
theorem set_track_property_value_passthrough (ti : JSVal) (q : ℚ)
    (hq : q < 0 ∨ 1 < q) :
    (set_track_property_handler false
      [("track_index", ti), ("property", JSVal.vStr "volume"),
       ("value", JSVal.vNum q)]).2 =
      [Effect.send "/live/track/set/volume" [ti, JSVal.vNum q]] := by
  rfl

/-- C4 witness: out-of-range input `1.5` on track 7 is forwarded as `1.5`. -/
theorem set_track_property_value_passthrough_witness :
    ((3/2 : ℚ) < 0 ∨ 1 < (3/2 : ℚ)) ∧
    (set_track_property_handler false
      [("track_index", JSVal.vNum 7), ("property", JSVal.vStr "volume"),
       ("value", JSVal.vNum (3/2))]).2 =
      [Effect.send "/live/track/set/volume" [JSVal.vNum 7, JSVal.vNum (3/2)]] :=
  ⟨Or.inr (by norm_num),
   set_track_property_value_passthrough (JSVal.vNum 7) (3/2) (Or.inr (by norm_num))⟩

-- C5: boolean coercion at the protocol boundary.

/-- C5 counterexample: the generic declarative dispatch path performs no
boolean coercion — `set_tempo` called with a boolean `tempo` sends the
language-native boolean in the outbound message. -/
theorem generic_path_sends_native_boolean :
    (handleTool (fun _ _ => (Except.error "", [])) false OSC_MAPPINGS (fun _ => [])
      "set_tempo" [("tempo", JSVal.vBool true)]).2 =
      [Effect.send "/live/song/set/tempo" [JSVal.vBool true]] := by
  rfl

/-- C5 (amended): boolean-to-0/1 coercion is per-call-site, not a uniform
boundary pass: the `set_track_property` handler coerces its boolean `value`
to 1/0 before sending, while the generic declarative path forwards a
boolean argument unchanged, so a sent message there can carry a native
boolean. -/
theorem boolean_coercion_per_path (b : Bool) (ti : JSVal) :
    (set_track_property_handler false
      [("track_index", ti), ("property", JSVal.vStr "mute"),
       ("value", JSVal.vBool b)]).2 =
      [Effect.send "/live/track/set/mute" [ti, JSVal.vNum (cond b 1 0)]] ∧
    ∀ (H : String → Args → ToolOutcome) (replyOf : String → List JSVal) (b' : Bool),
      (handleTool H false OSC_MAPPINGS replyOf "set_tempo" [("tempo", JSVal.vBool b')]).2 =
        [Effect.send "/live/song/set/tempo" [JSVal.vBool b']] := by
  constructor
  · cases b <;> rfl
  · intro H replyOf b'
    rfl

-- C6: explicit undefined versus absent parameter values.

/-- C6 counterexample: an explicit `undefined` is not treated like an
absent value — `create_clip` called with `length` explicitly `undefined`
does not substitute the declared default `4.0`: the spread lets the
explicit `undefined` shadow the default and the sent message carries
`undefined` in the `length` position. -/
theorem explicit_undefined_not_defaulted :
    handleTool (fun _ _ => (Except.error "", [])) false OSC_MAPPINGS (fun _ => [])
      "create_clip"
      [("track_index", JSVal.vNum 0), ("clip_index", JSVal.vNum 0),
       ("length", JSVal.vUndef)] =
      (Except.ok (RetVal.str "Command sent: /live/clip_slot/create_clip"),
       [Effect.send "/live/clip_slot/create_clip"
         [JSVal.vNum 0, JSVal.vNum 0, JSVal.vUndef]]) ∧
    JSVal.vUndef ≠ JSVal.vNum 4 := by
  exact ⟨rfl, by decide⟩

/-- C6 (amended): on the declarative path, only an absent key triggers
default substitution; a key present in the caller record — including one
bound to `undefined`, and explicit `0`/`false`/empty-string values — wins
over the declared default and is forwarded as supplied. (A present
`undefined` thus suppresses the default: with a truthy default declared it
is sent as `undefined`; see the counterexample.) -/
theorem handleTool_undefined_vs_absent (H : String → Args → ToolOutcome)
    (mappings : List (String × ToolMapping)) (replyOf : String → List JSVal)
    (toolName : String) (args : Args) (m : ToolMapping) (addr : String)
    (hname : toolName ≠ "health_check")
    (hlook : lookupName mappings toolName = some m)
    (hh : m.hasHandler = false)
    (haddr : m.address = some addr)
    (hfnf : m.fireAndForget = true)
    (hdef : ∀ q ∈ m.params, getProp (args ++ m.defaults) q ≠ JSVal.vUndef ∨
      truthy (getProp m.defaults q) = true) :
    handleTool H false mappings replyOf toolName args =
      (Except.ok (RetVal.str ("Command sent: " ++ addr)),
       [Effect.send addr (m.params.map (getProp (args ++ m.defaults)))]) ∧
    (∀ p, getEntry args p = none →
      getProp (args ++ m.defaults) p = getProp m.defaults p) ∧
    (∀ p v, getEntry args p = some v → getProp (args ++ m.defaults) p = v) := by
  refine ⟨?_, ?_, ?_⟩
  · have hok := extractParams_ok m.defaults (args ++ m.defaults) m.params hdef
    simp [handleTool, hname, hlook, hh, haddr, hfnf, hok]
  · intro p hp
    simp [getProp, getEntry_append_of_none args m.defaults p hp]
  · intro p v hv
    simp [getProp, getEntry_append_of_some args m.defaults p v hv]

/-- C6 witness: `create_clip` with `length` explicitly `undefined` — the
explicit `undefined` wins over the default `4.0` and is forwarded, while an
absent key would have read the default. -/
theorem handleTool_undefined_vs_absent_witness :
    handleTool (fun _ _ => (Except.error "", [])) false OSC_MAPPINGS (fun _ => [])
      "create_clip"
      [("track_index", JSVal.vNum 0), ("clip_index", JSVal.vNum 0),
       ("length", JSVal.vUndef)] =
      (Except.ok (RetVal.str "Command sent: /live/clip_slot/create_clip"),
       [Effect.send "/live/clip_slot/create_clip"
         [JSVal.vNum 0, JSVal.vNum 0, JSVal.vUndef]]) ∧
    (∀ p, getEntry [("track_index", JSVal.vNum 0), ("clip_index", JSVal.vNum 0),
        ("length", JSVal.vUndef)] p = none →
      getProp ([("track_index", JSVal.vNum 0), ("clip_index", JSVal.vNum 0),
        ("length", JSVal.vUndef)] ++ [("length", JSVal.vNum 4)]) p =
        getProp [("length", JSVal.vNum 4)] p) ∧
    (∀ p v, getEntry [("track_index", JSVal.vNum 0), ("clip_index", JSVal.vNum 0),
        ("length", JSVal.vUndef)] p = some v →
      getProp ([("track_index", JSVal.vNum 0), ("clip_index", JSVal.vNum 0),
        ("length", JSVal.vUndef)] ++ [("length", JSVal.vNum 4)]) p = v) := by
  have h := handleTool_undefined_vs_absent (fun _ _ => (Except.error "", []))
    OSC_MAPPINGS (fun _ => []) "create_clip"
    [("track_index", JSVal.vNum 0), ("clip_index", JSVal.vNum 0), ("length", JSVal.vUndef)]
    (declTool "/live/clip_slot/create_clip" ["track_index", "clip_index", "length"]
      [("length", JSVal.vNum 4)])
    "/live/clip_slot/create_clip"
    (by decide) rfl rfl rfl rfl (by decide)
  simpa using h

-- C7, C8, C10: the inbound call surface.

/-- A session: each inbound call is handled independently by the same
request handler; the dispatcher keeps no per-session mutable state. -/
def runSession (H : String → Args → ToolOutcome) (testMode : Bool)
    (mappings : List (String × ToolMapping)) (replyOf : String → List JSVal)
    (calls : List (String × Args)) : List (ToolResponse × List Effect) :=
  calls.map (fun c => callToolHandler H testMode mappings replyOf c.1 c.2)

/-- C7: an operation name found in neither the custom-handler table nor the
declarative catalog is rejected with a structured error result — `isError`
set, never a throw across the call surface — whose text names the
operation; no transport effect occurs, and every subsequent call of the
session behaves exactly as if the failed call had never happened. -/
theorem unknown_tool_rejected (H : String → Args → ToolOutcome)
    (replyOf : String → List JSVal) (name : String) (args : Args)
    (rest : List (String × Args))
    (hname : name ≠ "health_check")
    (hlook : lookupName OSC_MAPPINGS name = none) :
    callToolHandler H false OSC_MAPPINGS replyOf name args =
      ({ text := "Error: " ++ ("Tool '" ++ name ++
          "' is defined in ableton_mcp_tools.json but not yet implemented in the server. " ++
          "This tool requires custom OSC mapping logic to be added to the server."),
         isError := true }, []) ∧
    strHas (callToolHandler H false OSC_MAPPINGS replyOf name args).1.text name = true ∧
    runSession H false OSC_MAPPINGS replyOf ((name, args) :: rest) =
      callToolHandler H false OSC_MAPPINGS replyOf name args ::
        runSession H false OSC_MAPPINGS replyOf rest := by
  have hmain : callToolHandler H false OSC_MAPPINGS replyOf name args =
      ({ text := "Error: " ++ ("Tool '" ++ name ++
          "' is defined in ableton_mcp_tools.json but not yet implemented in the server. " ++
          "This tool requires custom OSC mapping logic to be added to the server."),
         isError := true }, []) := by
    simp [callToolHandler, handleTool, hname, hlook]
  refine ⟨hmain, ?_, rfl⟩
  rw [hmain]
  apply strHas_of_decomp ("Error: Tool '") name
    ("' is defined in ableton_mcp_tools.json but not yet implemented in the server. " ++
     "This tool requires custom OSC mapping logic to be added to the server.")
  apply String.ext
  simp [String.data_append, List.append_assoc]

/-- C7 witness: unknown operation `frobnicate` called with `{}` is rejected
with a structured error naming `frobnicate` and without effects, and a
following `set_tempo` call proceeds exactly as it would alone. -/
theorem unknown_tool_rejected_witness :
    callToolHandler (fun _ _ => (Except.error "", [])) false OSC_MAPPINGS (fun _ => [])
      "frobnicate" [] =
      ({ text := "Error: " ++ ("Tool '" ++ "frobnicate" ++
          "' is defined in ableton_mcp_tools.json but not yet implemented in the server. " ++
          "This tool requires custom OSC mapping logic to be added to the server."),
         isError := true }, []) ∧
    strHas (callToolHandler (fun _ _ => (Except.error "", [])) false OSC_MAPPINGS
      (fun _ => []) "frobnicate" []).1.text "frobnicate" = true ∧
    runSession (fun _ _ => (Except.error "", [])) false OSC_MAPPINGS (fun _ => [])
      [("frobnicate", []), ("set_tempo", [("tempo", JSVal.vNum 120)])] =
      callToolHandler (fun _ _ => (Except.error "", [])) false OSC_MAPPINGS (fun _ => [])
        "frobnicate" [] ::
        runSession (fun _ _ => (Except.error "", [])) false OSC_MAPPINGS (fun _ => [])
          [("set_tempo", [("tempo", JSVal.vNum 120)])] :=
  unknown_tool_rejected (fun _ _ => (Except.error "", [])) (fun _ => [])
    "frobnicate" [] [("set_tempo", [("tempo", JSVal.vNum 120)])]
    (by decide) rfl

/-- C8: with the test-mode flag set, every call at the inbound surface
completes with zero transport effects — no send and no wait registration —
and returns the deterministic canned result: "ok" for `health_check`, the
fixed tempo string for `get_tempo`, and the fixed success message for any
other operation name. -/
theorem test_mode_short_circuit (H : String → Args → ToolOutcome)
    (mappings : List (String × ToolMapping)) (replyOf : String → List JSVal)
    (name : String) (args : Args) :
    callToolHandler H true mappings replyOf name args =
      ({ text :=
           if name = "health_check" then "ok"
           else if name = "get_tempo" then "Current tempo: 120 BPM"
           else "Test mode: " ++ name ++ " executed successfully",
         isError := false }, []) := by
  by_cases h1 : name = "health_check"
  · simp [callToolHandler, h1]
  · by_cases h2 : name = "get_tempo"
    · simp [callToolHandler, h1, h2]
    · simp [callToolHandler, h1, h2]

/-- C10: `health_check` is special-cased ahead of all mapping lookup — for
any argument record, any custom-handler semantics and any mapping table,
`handleTool` returns "ok" with zero effects, and the live-mode call surface
returns the plain "ok" response; neither the custom-handler table nor the
declarative catalog is consulted (the result is the same for every table). -/
theorem health_check_short_circuit (H : String → Args → ToolOutcome)
    (testMode : Bool) (mappings : List (String × ToolMapping))
    (replyOf : String → List JSVal) (args : Args) :
    handleTool H testMode mappings replyOf "health_check" args =
      (Except.ok (RetVal.str "ok"), []) ∧
    callToolHandler H false mappings replyOf "health_check" args =
      ({ text := "ok", isError := false }, []) := by
  exact ⟨rfl, rfl⟩
